import Mathlib

/-!
Verification of the moto-experiments preloader protocol client.

The definitions below are a shallow embedding of the Python sources:
  * `src/utils.py`   — byte codec (`to_bytes` / `from_bytes`), port discovery
  * `src/device.py`  — the `Device` session: handshake, command envelope,
                       identification, DA upload and jump
  * `src/commands.py` — the protocol opcodes

Bytes are modelled as `Nat` (values < 256 where produced by the code),
byte strings as `List Nat`.  Python exceptions become an explicit error
type; Python code that raises returns `Except` / `Res` values.
-/

namespace Moto

/-- Endianness parameter of the codec: `'>'` (big) or `'<'` (little) in
`struct.pack` / `struct.unpack` format strings. -/
inductive Endian where
  | big
  | little
deriving DecidableEq

/-- The error kinds raised by the Python code (all `RuntimeError` /
`struct.error` at runtime), classified by raise site:
  * `invalidSize` — `RuntimeError('invalid size')` from the codec;
  * `structError` — `struct.error` (value out of range for `pack`, or a
    byte string whose length differs from the format size for `unpack`);
  * `protocolMismatch expected got` — `RuntimeError` from `Device.check`;
  * `statusError code` — `RuntimeError('status is 0x%04X')` from a
    nonzero trailing status (the spec's DeviceStatusError / TransferFailed);
  * `emptyIdentity which` — `RuntimeError('<which> length is 0')`;
  * `deviceNotFound` — `RuntimeError('Device not found')`. -/
inductive PyError where
  | invalidSize
  | structError
  | protocolMismatch (expected got : List Nat)
  | statusError (code : Nat)
  | emptyIdentity (which : String)
  | deviceNotFound
deriving DecidableEq

/-- Byte order applied by the codec: big-endian keeps the most significant
byte first, little-endian reverses it. -/
def Endian.order (e : Endian) (bs : List Nat) : List Nat :=
  match e with
  | .big => bs
  | .little => bs.reverse

/-- `struct.pack(endian + 'B', value)`: one byte, fails if `value ≥ 2^8`. -/
def pack1 (value : Nat) : Except PyError (List Nat) :=
  if value < 256 then .ok [value] else .error .structError

/-- `struct.pack(endian + 'H', value)`: two bytes, fails if `value ≥ 2^16`. -/
def pack2 (value : Nat) (endian : Endian) : Except PyError (List Nat) :=
  if value < 65536 then
    .ok (endian.order [value / 256 % 256, value % 256])
  else .error .structError

/-- `struct.pack(endian + 'I', value)`: four bytes, fails if `value ≥ 2^32`. -/
def pack4 (value : Nat) (endian : Endian) : Except PyError (List Nat) :=
  if value < 4294967296 then
    .ok (endian.order
      [value / 16777216 % 256, value / 65536 % 256, value / 256 % 256,
       value % 256])
  else .error .structError

/-- `src/utils.py` `to_bytes(value, size=1, endian='>')`: dispatches on
`size ∈ \x7b1, 2, 4\x7d` to `struct.pack`, any other size raises
`RuntimeError('invalid size')`. -/
def to_bytes (value : Nat) (size : Nat) (endian : Endian) :
    Except PyError (List Nat) :=
  if size = 1 then pack1 value
  else if size = 2 then pack2 value endian
  else if size = 4 then pack4 value endian
  else .error .invalidSize

/-- `struct.unpack(endian + 'B', value)[0]`. -/
def unpack1 (value : List Nat) : Except PyError Nat :=
  match value with
  | [b0] => .ok b0
  | _ => .error .structError

/-- `struct.unpack(endian + 'H', value)[0]`. -/
def unpack2 (value : List Nat) (endian : Endian) : Except PyError Nat :=
  match endian.order value with
  | [b0, b1] => .ok (b0 * 256 + b1)
  | _ => .error .structError

/-- `struct.unpack(endian + 'I', value)[0]`. -/
def unpack4 (value : List Nat) (endian : Endian) : Except PyError Nat :=
  match endian.order value with
  | [b0, b1, b2, b3] => .ok (((b0 * 256 + b1) * 256 + b2) * 256 + b3)
  | _ => .error .structError

/-- `src/utils.py` `from_bytes(value, size=1, endian='>')`: dispatches on
`size ∈ \x7b1, 2, 4\x7d` to `struct.unpack`, any other size raises
`RuntimeError('invalid size')`. -/
def from_bytes (value : List Nat) (size : Nat) (endian : Endian) :
    Except PyError Nat :=
  if size = 1 then unpack1 value
  else if size = 2 then unpack2 value endian
  else if size = 4 then unpack4 value endian
  else .error .invalidSize

/-- Claim C1: for every width w ∈ \x7b1,2,4\x7d, every endianness, and every
value representable in w bytes, `to_bytes` succeeds with a byte string of
length exactly w and `from_bytes` decodes it back to the value. -/
theorem c1_codec_roundtrip (w : Nat) (e : Endian) (v : Nat)
    (hw : w = 1 ∨ w = 2 ∨ w = 4) (hv : v < 256 ^ w) :
    ∃ bs, to_bytes v w e = .ok bs ∧ bs.length = w ∧
      from_bytes bs w e = .ok v := by
  rcases hw with hw | hw | hw <;> subst hw
  · refine ⟨[v], ?_, rfl, ?_⟩
    · have hv' : v < 256 := by norm_num at hv; omega
      simp [to_bytes, pack1, hv']
    · simp [from_bytes, unpack1]
  · have hv' : v < 65536 := by norm_num at hv; omega
    have h0 : v / 256 % 256 = v / 256 := Nat.mod_eq_of_lt (by omega)
    cases e
    · refine ⟨[v / 256 % 256, v % 256], ?_, rfl, ?_⟩
      · simp [to_bytes, pack2, Endian.order, if_pos hv']
      · simp only [from_bytes, unpack2, Endian.order]
        norm_num
        omega
    · refine ⟨[v % 256, v / 256 % 256], ?_, rfl, ?_⟩
      · simp [to_bytes, pack2, Endian.order, if_pos hv']
      · simp only [from_bytes, unpack2, Endian.order, List.reverse_cons,
          List.reverse_nil, List.nil_append, List.cons_append]
        norm_num
        omega
  · have hv' : v < 4294967296 := by norm_num at hv; omega
    cases e
    · refine ⟨[v / 16777216 % 256, v / 65536 % 256, v / 256 % 256, v % 256],
        ?_, rfl, ?_⟩
      · simp [to_bytes, pack4, Endian.order, if_pos hv']
      · simp only [from_bytes, unpack4, Endian.order]
        norm_num
        omega
    · refine ⟨[v % 256, v / 256 % 256, v / 65536 % 256, v / 16777216 % 256],
        ?_, rfl, ?_⟩
      · simp [to_bytes, pack4, Endian.order, if_pos hv']
      · simp only [from_bytes, unpack4, Endian.order, List.reverse_cons,
          List.reverse_nil, List.nil_append, List.cons_append]
        norm_num
        omega

/-- Witness for C1 at w = 2, big-endian, v = 0x1234. -/
theorem c1_codec_roundtrip_witness :
    ∃ bs, to_bytes 0x1234 2 Endian.big = .ok bs ∧ bs.length = 2 ∧
      from_bytes bs 2 Endian.big = .ok 0x1234 :=
  c1_codec_roundtrip 2 Endian.big 0x1234 (by decide) (by norm_num)

/-- Claim C2: for every width outside \x7b1,2,4\x7d, both `to_bytes` and
`from_bytes` fail with the invalid-size error, for every value, byte input
and endianness. -/
theorem c2_invalid_width (w : Nat) (hw1 : w ≠ 1) (hw2 : w ≠ 2) (hw4 : w ≠ 4)
    (v : Nat) (bs : List Nat) (e : Endian) :
    to_bytes v w e = .error .invalidSize ∧
      from_bytes bs w e = .error .invalidSize := by
  constructor
  · simp [to_bytes, hw1, hw2, hw4]
  · simp [from_bytes, hw1, hw2, hw4]

/-- Witness for C2 at w = 3. -/
theorem c2_invalid_width_witness :
    to_bytes 7 3 Endian.big = .error .invalidSize ∧
      from_bytes [1, 2, 3] 3 Endian.big = .error .invalidSize :=
  c2_invalid_width 3 (by decide) (by decide) (by decide) 7 [1, 2, 3]
    Endian.big

/-! ### Transport and session model

`serial.Serial` is modelled as a scripted mock transport: `script` lists,
in order, the byte chunk each successive `read` call yields (an empty
chunk models a timeout that returned no bytes); `log` records the
observable transport events — each `write` with its data, each `read`
with the requested size, and each `reset_input_buffer`. -/

/-- One observable transport event. -/
inductive Ev where
  | write (data : List Nat)
  | read (size : Nat)
  | flush
deriving DecidableEq

/-- The scripted serial device: remaining read script plus event log. -/
structure Dev where
  script : List (List Nat)
  log : List Ev
deriving DecidableEq

/-- `self.dev.write(data)`. -/
def devWrite (d : Dev) (data : List Nat) : Dev :=
  { d with log := d.log ++ [Ev.write data] }

/-- `self.dev.read(n)`: yields the next scripted chunk (nothing once the
script is exhausted, as on a timeout). -/
def devRead (d : Dev) (n : Nat) : List Nat × Dev :=
  match d.script with
  | [] => ([], { d with log := d.log ++ [Ev.read n] })
  | c :: rest => (c, { script := rest, log := d.log ++ [Ev.read n] })

/-- `self.dev.reset_input_buffer()`. -/
def devFlush (d : Dev) : Dev :=
  { d with log := d.log ++ [Ev.flush] }

/-- Outcome of a `Device` method: either a Python exception or a value,
together with the transport state reached. -/
inductive Res (α : Type) where
  | raise (e : PyError) (d : Dev)
  | ok (a : α) (d : Dev)
deriving DecidableEq

/-- Exception propagation of sequenced `Device` calls. -/
def Res.bind {α β : Type} : Res α → (α → Dev → Res β) → Res β
  | .raise e d, _ => .raise e d
  | .ok a d, f => f a d

/-- Runs a codec call inside a `Device` method: a codec error becomes the
raised exception at the current transport state. -/
def liftE {α β : Type} (d : Dev) (x : Except PyError α) (k : α → Res β) :
    Res β :=
  match x with
  | .error e => .raise e d
  | .ok a => k a

/-- Opcodes from `src/commands.py` used by the session. -/
def Command.GET_HW_SW_VER : Nat := 0xFC

/-- `Command.GET_HW_CODE`. -/
def Command.GET_HW_CODE : Nat := 0xFD

/-- `Command.PWR_INIT`. -/
def Command.PWR_INIT : Nat := 0xC4

/-- `Command.PWR_DEINIT`. -/
def Command.PWR_DEINIT : Nat := 0xC5

/-- `Command.JUMP_DA`. -/
def Command.JUMP_DA : Nat := 0xD5

/-- `Command.SEND_DA`. -/
def Command.SEND_DA : Nat := 0xD7

/-- `Command.GET_ME_ID`. -/
def Command.GET_ME_ID : Nat := 0xE1

/-- `Command.GET_SOC_ID`. -/
def Command.GET_SOC_ID : Nat := 0xE7

/-- `Device.check(test, expected)`: raises
`RuntimeError('Expected ..., got ...')` on mismatch, else returns True. -/
def check (test expected : List Nat) : Except PyError Bool :=
  if test ≠ expected then .error (.protocolMismatch expected test)
  else .ok true

/-- `Device.echo(words, size=1)`: writes `words`, reads `size` bytes and
discards them (the echo check in the source is commented out). -/
def echo (d : Dev) (words : List Nat) (size : Nat) : Dev :=
  let d1 := devWrite d words
  (devRead d1 size).2

/-- `Device.wr(data, size=1)`: writes `data` and returns the bytes read. -/
def wr (d : Dev) (data : List Nat) (size : Nat) : List Nat × Dev :=
  let d1 := devWrite d data
  devRead d1 size

/-- The synchronization loop of `Device.handshake`: write `0xA0`, read one
byte; stop on `0x5F`, otherwise `reset_input_buffer` and repeat.  The
Python loop is unbounded; here it walks the finite read script and
returns `none` when the script is exhausted without `0x5F` — every further
read would yield nothing, so the Python loop never terminates. -/
def syncLoopGo (script : List (List Nat)) (log : List Ev) :
    Option (List (List Nat) × List Ev) :=
  match script with
  | [] => none
  | c :: rest =>
    let log1 := log ++ [Ev.write [0xA0], Ev.read 1]
    if c = [0x5F] then some (rest, log1)
    else syncLoopGo rest (log1 ++ [Ev.flush])

/-- The synchronization loop on the device state. -/
def syncLoop (d : Dev) : Option Dev :=
  match syncLoopGo d.script d.log with
  | none => none
  | some (s, l) => some ⟨s, l⟩

/-- The transport events of a successful synchronization whose first `n`
probes failed: each failed probe is write-read-flush, the final probe is
write-read. -/
def syncTrace : Nat → List Ev
  | 0 => [Ev.write [0xA0], Ev.read 1]
  | n + 1 => [Ev.write [0xA0], Ev.read 1, Ev.flush] ++ syncTrace n

/-- `Device.handshake()`: synchronize, then exchange the three probe bytes
`0x0A`/`0x50`/`0x05` checking echoes `0xF5`/`0xAF`/`0xFA` via
`Device.check`.  `none` models the non-terminating synchronization. -/
def handshake (d : Dev) : Option (Res Unit) :=
  match syncLoop d with
  | none => none
  | some d1 =>
    let (r1, d2) := wr d1 [0x0A] 1
    match check r1 [0xF5] with
    | .error e => some (.raise e d2)
    | .ok _ =>
      let (r2, d3) := wr d2 [0x50] 1
      match check r2 [0xAF] with
      | .error e => some (.raise e d3)
      | .ok _ =>
        let (r3, d4) := wr d3 [0x05] 1
        match check r3 [0xFA] with
        | .error e => some (.raise e d4)
        | .ok _ => some (.ok () d4)

/-- Unfolding lemma: a failed probe prepends its events and recurses. -/
theorem syncLoopGo_cons_ne (c : List Nat) (rest : List (List Nat))
    (log : List Ev) (hc : c ≠ [0x5F]) :
    syncLoopGo (c :: rest) log =
      syncLoopGo rest (log ++ [Ev.write [0xA0], Ev.read 1, Ev.flush]) := by
  simp [syncLoopGo, hc]

/-- The sync loop consumes every non-`0x5F` prefix and stops right after
the first `0x5F` chunk, appending exactly the probe trace to the log. -/
theorem syncLoopGo_spec (pre : List (List Nat)) (rest : List (List Nat))
    (log : List Ev) (hpre : ∀ c ∈ pre, c ≠ [0x5F]) :
    syncLoopGo (pre ++ [0x5F] :: rest) log =
      some (rest, log ++ syncTrace pre.length) := by
  induction pre generalizing log with
  | nil => simp [syncLoopGo, syncTrace]
  | cons c pre ih =>
    have hc : c ≠ [0x5F] := hpre c (List.mem_cons_self c pre)
    rw [List.cons_append, syncLoopGo_cons_ne c _ _ hc,
      ih _ (fun x hx => hpre x (List.mem_cons_of_mem c hx))]
    simp [syncTrace, List.append_assoc]

/-- If `0x5F` never arrives, the sync loop never returns. -/
theorem syncLoopGo_diverge (script : List (List Nat)) (log : List Ev)
    (h : ∀ c ∈ script, c ≠ [0x5F]) :
    syncLoopGo script log = none := by
  induction script generalizing log with
  | nil => rfl
  | cons c rest ih =>
    rw [syncLoopGo_cons_ne c rest log (h c (List.mem_cons_self c rest))]
    exact ih _ (fun x hx => h x (List.mem_cons_of_mem c hx))

/-- The probe trace of `n` failed probes holds `n + 1` sync-byte writes. -/
theorem syncTrace_count_write (n : Nat) :
    (syncTrace n).count (Ev.write [0xA0]) = n + 1 := by
  induction n with
  | zero => rfl
  | succ n ih => simp [syncTrace, ih]

/-- The probe trace of `n` failed probes holds `n` buffer flushes. -/
theorem syncTrace_count_flush (n : Nat) :
    (syncTrace n).count Ev.flush = n := by
  induction n with
  | zero => rfl
  | succ n ih => simp [syncTrace, ih]

/-- Claim C3: when the first `pre.length` probe reads yield non-`0x5F`
chunks and the next yields `0x5F`, the sync phase writes `0xA0` exactly
`pre.length + 1` times, flushes the input buffer exactly `pre.length`
times (once after each failed probe), and exits right after the
successful probe, leaving the rest of the script unread; and when no read
ever yields `0x5F`, the loop never terminates. -/
theorem c3_sync_loop :
    (∀ (pre rest : List (List Nat)), (∀ c ∈ pre, c ≠ [0x5F]) →
      syncLoop ⟨pre ++ [0x5F] :: rest, []⟩ =
        some ⟨rest, syncTrace pre.length⟩ ∧
      (syncTrace pre.length).count (Ev.write [0xA0]) = pre.length + 1 ∧
      (syncTrace pre.length).count Ev.flush = pre.length) ∧
    (∀ script : List (List Nat), (∀ c ∈ script, c ≠ [0x5F]) →
      syncLoop ⟨script, []⟩ = none) := by
  constructor
  · intro pre rest hpre
    refine ⟨?_, syncTrace_count_write pre.length,
      syncTrace_count_flush pre.length⟩
    simp [syncLoop, syncLoopGo_spec pre rest [] hpre]
  · intro script h
    simp [syncLoop, syncLoopGo_diverge script [] h]

/-- Witness for C3: two garbage probes, then `0x5F` on the third. -/
theorem c3_sync_loop_witness :
    syncLoop ⟨[[0x00], [], [0x5F], [0xAA]], []⟩ =
      some ⟨[[0xAA]], syncTrace 2⟩ ∧
    (syncTrace 2).count (Ev.write [0xA0]) = 2 + 1 ∧
    (syncTrace 2).count Ev.flush = 2 :=
  c3_sync_loop.1 [[0x00], []] [[0xAA]] (by decide)

/-- `Device.get_hw_code()`: opcode echo, 2-byte hw-code, 2-byte status
(nonzero status raises), returns the decoded hw-code. -/
def get_hw_code (d : Dev) : Res Nat :=
  liftE d (to_bytes Command.GET_HW_CODE 1 .big) fun op =>
  let d1 := echo d op 1
  let (hw_code, d2) := devRead d1 2
  let (status, d3) := devRead d2 2
  liftE d3 (from_bytes status 2 .big) fun s =>
  if s ≠ 0 then .raise (.statusError s) d3
  else liftE d3 (from_bytes hw_code 2 .big) fun v => .ok v d3

/-- `Device.get_hw_sw_ver()`: opcode echo, three 2-byte fields, 2-byte
status (nonzero raises), returns the decoded triple. -/
def get_hw_sw_ver (d : Dev) : Res (Nat × Nat × Nat) :=
  liftE d (to_bytes Command.GET_HW_SW_VER 1 .big) fun op =>
  let d1 := echo d op 1
  let (hw_sub_code, d2) := devRead d1 2
  let (hw_ver, d3) := devRead d2 2
  let (sw_ver, d4) := devRead d3 2
  let (status, d5) := devRead d4 2
  liftE d5 (from_bytes status 2 .big) fun s =>
  if s ≠ 0 then .raise (.statusError s) d5
  else
    liftE d5 (from_bytes hw_sub_code 2 .big) fun a =>
    liftE d5 (from_bytes hw_ver 2 .big) fun b =>
    liftE d5 (from_bytes sw_ver 2 .big) fun c =>
    .ok (a, b, c) d5

/-- `Device.get_me_id()`: opcode echo, 4-byte length (zero raises
`RuntimeError('ME ID length is 0')` before any further read), `length`
identity bytes, 2-byte status (nonzero raises). -/
def get_me_id (d : Dev) : Res (List Nat) :=
  liftE d (to_bytes Command.GET_ME_ID 1 .big) fun op =>
  let d1 := echo d op 1
  let (lenB, d2) := devRead d1 4
  liftE d2 (from_bytes lenB 4 .big) fun length =>
  if length = 0 then .raise (.emptyIdentity "ME ID") d2
  else
    let (me_id, d3) := devRead d2 length
    let (status, d4) := devRead d3 2
    liftE d4 (from_bytes status 2 .big) fun s =>
    if s ≠ 0 then .raise (.statusError s) d4
    else .ok me_id d4

/-- `Device.get_soc_id()`: same shape as `get_me_id`, raising
`RuntimeError('SOC ID length is 0')` on a zero length. -/
def get_soc_id (d : Dev) : Res (List Nat) :=
  liftE d (to_bytes Command.GET_SOC_ID 1 .big) fun op =>
  let d1 := echo d op 1
  let (lenB, d2) := devRead d1 4
  liftE d2 (from_bytes lenB 4 .big) fun length =>
  if length = 0 then .raise (.emptyIdentity "SOC ID") d2
  else
    let (soc_id, d3) := devRead d2 length
    let (status, d4) := devRead d3 2
    liftE d4 (from_bytes status 2 .big) fun s =>
    if s ≠ 0 then .raise (.statusError s) d4
    else .ok soc_id d4

/-- `Device.power_init(reg, val)`: opcode echo, 4-byte register and value
each echoed (echo read size 1, the `echo` default), 2-byte status. -/
def power_init (d : Dev) (reg val : Nat) : Res Unit :=
  liftE d (to_bytes Command.PWR_INIT 1 .big) fun op =>
  let d1 := echo d op 1
  liftE d1 (to_bytes reg 4 .big) fun regB =>
  let d2 := echo d1 regB 1
  liftE d2 (to_bytes val 4 .big) fun valB =>
  let d3 := echo d2 valB 1
  let (status, d4) := devRead d3 2
  liftE d4 (from_bytes status 2 .big) fun s =>
  if s ≠ 0 then .raise (.statusError s) d4
  else .ok () d4

/-- `Device.power_deinit()`: opcode echo, 2-byte status. -/
def power_deinit (d : Dev) : Res Unit :=
  liftE d (to_bytes Command.PWR_DEINIT 1 .big) fun op =>
  let d1 := echo d op 1
  let (status, d2) := devRead d1 2
  liftE d2 (from_bytes status 2 .big) fun s =>
  if s ≠ 0 then .raise (.statusError s) d2
  else .ok () d2

/-- `Device.send_da(address, da_len, sig_len, da)`: opcode echo, the three
4-byte header fields each echoed with a 4-byte echo read, 2-byte initial
status (nonzero raises), then the raw payload written with no echo read,
then 2-byte checksum and 2-byte status (nonzero raises); returns the
decoded checksum. -/
def send_da (d : Dev) (address da_len sig_len : Nat) (da : List Nat) :
    Res Nat :=
  liftE d (to_bytes Command.SEND_DA 1 .big) fun op =>
  let d1 := echo d op 1
  liftE d1 (to_bytes address 4 .big) fun aB =>
  let d2 := echo d1 aB 4
  liftE d2 (to_bytes da_len 4 .big) fun lB =>
  let d3 := echo d2 lB 4
  liftE d3 (to_bytes sig_len 4 .big) fun sB =>
  let d4 := echo d3 sB 4
  let (status1, d5) := devRead d4 2
  liftE d5 (from_bytes status1 2 .big) fun s1 =>
  if s1 ≠ 0 then .raise (.statusError s1) d5
  else
    let d6 := devWrite d5 da
    let (csB, d7) := devRead d6 2
    liftE d7 (from_bytes csB 2 .big) fun checksum =>
    let (stB, d8) := devRead d7 2
    liftE d8 (from_bytes stB 2 .big) fun s2 =>
    if s2 ≠ 0 then .raise (.statusError s2) d8
    else .ok checksum d8

/-- `Device.jump_da(address)`: opcode echo, 4-byte address echoed (echo
read size 1, the `echo` default), then a 2-byte status read whose value is
never inspected — the method returns normally whatever it is. -/
def jump_da (d : Dev) (address : Nat) : Res Unit :=
  liftE d (to_bytes Command.JUMP_DA 1 .big) fun op =>
  let d1 := echo d op 1
  liftE d1 (to_bytes address 4 .big) fun aB =>
  let d2 := echo d1 aB 1
  let (_status, d3) := devRead d2 2
  .ok () d3

/-- The ephemeral identification aggregate: the six values `identify`
computes and reports (the Python method binds them and emits them as its
log output). -/
structure IdRecord where
  hw_code : Nat
  hw_sub_code : Nat
  hw_ver : Nat
  sw_ver : Nat
  me_id : List Nat
  soc_id : List Nat
deriving DecidableEq

/-- `Device.identify()`: runs `get_hw_code`, `get_hw_sw_ver`, `get_me_id`,
`get_soc_id` in that order; the first failure aborts the sequence, and on
full success the six reported values form the identification record. -/
def identify (d : Dev) : Res IdRecord :=
  (get_hw_code d).bind fun hw_code d =>
  (get_hw_sw_ver d).bind fun v d =>
  (get_me_id d).bind fun me_id d =>
  (get_soc_id d).bind fun soc_id d =>
  .ok ⟨hw_code, v.1, v.2.1, v.2.2, me_id, soc_id⟩ d

/-- The identify-mode session of `preloader-relay.py` without
`-s`: `device.handshake()` then `device.identify()`; a handshake failure
propagates before any identification command is issued. -/
def relaySession (d : Dev) : Option (Res IdRecord) :=
  match handshake d with
  | none => none
  | some (.raise e d1) => some (.raise e d1)
  | some (.ok _ d1) => some (identify d1)

/-- Claim C4: after synchronization the handshake sends exactly the probe
bytes `0x0A`, `0x50`, `0x05` in that order, checking echoes `0xF5`,
`0xAF`, `0xFA`; a wrong echo at any of the three probes raises the
protocol-mismatch error, the later probe bytes are never written, and the
relay session issues no identification command (no `GET_HW_CODE` opcode
write ever appears in the log). -/
theorem c4_handshake_echo_mismatch :
    (∀ rest : List (List Nat),
      handshake ⟨[0x5F] :: [0xF5] :: [0xAF] :: [0xFA] :: rest, []⟩ =
        some (.ok () ⟨rest,
          [Ev.write [0xA0], Ev.read 1, Ev.write [0x0A], Ev.read 1,
           Ev.write [0x50], Ev.read 1, Ev.write [0x05], Ev.read 1]⟩)) ∧
    (∀ (e1 : List Nat) (rest : List (List Nat)), e1 ≠ [0xF5] →
      handshake ⟨[0x5F] :: e1 :: rest, []⟩ =
        some (.raise (.protocolMismatch [0xF5] e1) ⟨rest,
          [Ev.write [0xA0], Ev.read 1, Ev.write [0x0A], Ev.read 1]⟩) ∧
      relaySession ⟨[0x5F] :: e1 :: rest, []⟩ =
        some (.raise (.protocolMismatch [0xF5] e1) ⟨rest,
          [Ev.write [0xA0], Ev.read 1, Ev.write [0x0A], Ev.read 1]⟩) ∧
      Ev.write [0x50] ∉
        [Ev.write [0xA0], Ev.read 1, Ev.write [0x0A], Ev.read 1] ∧
      Ev.write [0x05] ∉
        [Ev.write [0xA0], Ev.read 1, Ev.write [0x0A], Ev.read 1] ∧
      Ev.write [Command.GET_HW_CODE] ∉
        [Ev.write [0xA0], Ev.read 1, Ev.write [0x0A], Ev.read 1]) ∧
    (∀ (e2 : List Nat) (rest : List (List Nat)), e2 ≠ [0xAF] →
      handshake ⟨[0x5F] :: [0xF5] :: e2 :: rest, []⟩ =
        some (.raise (.protocolMismatch [0xAF] e2) ⟨rest,
          [Ev.write [0xA0], Ev.read 1, Ev.write [0x0A], Ev.read 1,
           Ev.write [0x50], Ev.read 1]⟩) ∧
      relaySession ⟨[0x5F] :: [0xF5] :: e2 :: rest, []⟩ =
        some (.raise (.protocolMismatch [0xAF] e2) ⟨rest,
          [Ev.write [0xA0], Ev.read 1, Ev.write [0x0A], Ev.read 1,
           Ev.write [0x50], Ev.read 1]⟩) ∧
      Ev.write [0x05] ∉
        [Ev.write [0xA0], Ev.read 1, Ev.write [0x0A], Ev.read 1,
         Ev.write [0x50], Ev.read 1] ∧
      Ev.write [Command.GET_HW_CODE] ∉
        [Ev.write [0xA0], Ev.read 1, Ev.write [0x0A], Ev.read 1,
         Ev.write [0x50], Ev.read 1]) ∧
    (∀ (e3 : List Nat) (rest : List (List Nat)), e3 ≠ [0xFA] →
      handshake ⟨[0x5F] :: [0xF5] :: [0xAF] :: e3 :: rest, []⟩ =
        some (.raise (.protocolMismatch [0xFA] e3) ⟨rest,
          [Ev.write [0xA0], Ev.read 1, Ev.write [0x0A], Ev.read 1,
           Ev.write [0x50], Ev.read 1, Ev.write [0x05], Ev.read 1]⟩) ∧
      relaySession ⟨[0x5F] :: [0xF5] :: [0xAF] :: e3 :: rest, []⟩ =
        some (.raise (.protocolMismatch [0xFA] e3) ⟨rest,
          [Ev.write [0xA0], Ev.read 1, Ev.write [0x0A], Ev.read 1,
           Ev.write [0x50], Ev.read 1, Ev.write [0x05], Ev.read 1]⟩) ∧
      Ev.write [Command.GET_HW_CODE] ∉
        [Ev.write [0xA0], Ev.read 1, Ev.write [0x0A], Ev.read 1,
         Ev.write [0x50], Ev.read 1, Ev.write [0x05], Ev.read 1]) := by
  refine ⟨fun rest => rfl, fun e1 rest h1 => ?_, fun e2 rest h2 => ?_,
    fun e3 rest h3 => ?_⟩
  · refine ⟨?_, ?_, by decide, by decide, by decide⟩ <;>
      simp [handshake, relaySession, syncLoop, syncLoopGo, wr, check,
        devWrite, devRead, h1]
  · refine ⟨?_, ?_, by decide, by decide⟩ <;>
      simp [handshake, relaySession, syncLoop, syncLoopGo, wr, check,
        devWrite, devRead, h2]
  · refine ⟨?_, ?_, by decide⟩ <;>
      simp [handshake, relaySession, syncLoop, syncLoopGo, wr, check,
        devWrite, devRead, h3]

/-- Witness for C4: wrong echo `0x00` on the second probe. -/
theorem c4_handshake_echo_mismatch_witness :
    handshake ⟨[0x5F] :: [0xF5] :: [0x00] :: [], []⟩ =
      some (.raise (.protocolMismatch [0xAF] [0x00]) ⟨[],
        [Ev.write [0xA0], Ev.read 1, Ev.write [0x0A], Ev.read 1,
         Ev.write [0x50], Ev.read 1]⟩) ∧
    relaySession ⟨[0x5F] :: [0xF5] :: [0x00] :: [], []⟩ =
      some (.raise (.protocolMismatch [0xAF] [0x00]) ⟨[],
        [Ev.write [0xA0], Ev.read 1, Ev.write [0x0A], Ev.read 1,
         Ev.write [0x50], Ev.read 1]⟩) ∧
    Ev.write [0x05] ∉
      [Ev.write [0xA0], Ev.read 1, Ev.write [0x0A], Ev.read 1,
       Ev.write [0x50], Ev.read 1] ∧
    Ev.write [Command.GET_HW_CODE] ∉
      [Ev.write [0xA0], Ev.read 1, Ev.write [0x0A], Ev.read 1,
       Ev.write [0x50], Ev.read 1] :=
  c4_handshake_echo_mismatch.2.2.1 [0x00] [] (by decide)

/-- Claim C5: `identify` issues `GET_HW_CODE`, `GET_HW_SW_VER`,
`GET_ME_ID`, `GET_SOC_ID` in that order (their opcode writes appear in
this order in the log), and when every command succeeds — all statuses
zero, both identity lengths nonzero — it returns the record aggregating
hw-code, hw-sub-code, hw-version, sw-version, ME-ID and SoC-ID. -/
theorem c5_identify_success
    (e1 hw e2 sub ver sw e3 lm mid e4 ls sid : List Nat)
    (rest : List (List Nat)) (H A B C LM LS : Nat)
    (hhw : from_bytes hw 2 .big = .ok H)
    (hsub : from_bytes sub 2 .big = .ok A)
    (hver : from_bytes ver 2 .big = .ok B)
    (hsw : from_bytes sw 2 .big = .ok C)
    (hlm : from_bytes lm 4 .big = .ok LM) (hLM : LM ≠ 0)
    (hls : from_bytes ls 4 .big = .ok LS) (hLS : LS ≠ 0) :
    identify ⟨[e1, hw, [0, 0], e2, sub, ver, sw, [0, 0], e3, lm, mid,
        [0, 0], e4, ls, sid, [0, 0]] ++ rest, []⟩ =
      .ok ⟨H, A, B, C, mid, sid⟩ ⟨rest,
        [Ev.write [Command.GET_HW_CODE], Ev.read 1, Ev.read 2, Ev.read 2,
         Ev.write [Command.GET_HW_SW_VER], Ev.read 1, Ev.read 2,
         Ev.read 2, Ev.read 2, Ev.read 2,
         Ev.write [Command.GET_ME_ID], Ev.read 1, Ev.read 4, Ev.read LM,
         Ev.read 2,
         Ev.write [Command.GET_SOC_ID], Ev.read 1, Ev.read 4, Ev.read LS,
         Ev.read 2]⟩ := by
  have h00 : from_bytes [0, 0] 2 .big = .ok 0 := rfl
  simp [identify, get_hw_code, get_hw_sw_ver, get_me_id, get_soc_id,
    Res.bind, liftE, echo, devRead, devWrite, to_bytes, pack1,
    Command.GET_HW_CODE, Command.GET_HW_SW_VER, Command.GET_ME_ID,
    Command.GET_SOC_ID, hhw, hsub, hver, hsw, hlm, hLM, hls, hLS, h00]

/-- Witness for C5: scripted hw-code `0x1234` with all statuses zero. -/
theorem c5_identify_success_witness :
    identify ⟨[[0xFD], [0x12, 0x34], [0, 0], [0xFC], [0, 1], [0, 2],
        [0, 3], [0, 0], [0xE1], [0, 0, 0, 1], [0xAA], [0, 0], [0xE7],
        [0, 0, 0, 1], [0xBB], [0, 0]] ++ [], []⟩ =
      .ok ⟨0x1234, 1, 2, 3, [0xAA], [0xBB]⟩ ⟨[],
        [Ev.write [Command.GET_HW_CODE], Ev.read 1, Ev.read 2, Ev.read 2,
         Ev.write [Command.GET_HW_SW_VER], Ev.read 1, Ev.read 2,
         Ev.read 2, Ev.read 2, Ev.read 2,
         Ev.write [Command.GET_ME_ID], Ev.read 1, Ev.read 4, Ev.read 1,
         Ev.read 2,
         Ev.write [Command.GET_SOC_ID], Ev.read 1, Ev.read 4, Ev.read 1,
         Ev.read 2]⟩ :=
  c5_identify_success [0xFD] [0x12, 0x34] [0xFC] [0, 1] [0, 2] [0, 3]
    [0xE1] [0, 0, 0, 1] [0xAA] [0xE7] [0, 0, 0, 1] [0xBB] [] 0x1234 1 2 3
    1 1 rfl rfl rfl rfl rfl (by decide) rfl (by decide)

/-- Claim C6: a zero 4-byte length field makes `get_me_id` (and likewise
`get_soc_id`) raise the empty-identity error immediately after the length
read — the remaining script is untouched, so no identity bytes and no
trailing status are read — and inside `identify` that failure aborts the
sequence: the result is the raised error, not a record. -/
theorem c6_empty_identity :
    (∀ (e : List Nat) (rest : List (List Nat)),
      get_me_id ⟨[e, [0, 0, 0, 0]] ++ rest, []⟩ =
        .raise (.emptyIdentity "ME ID") ⟨rest,
          [Ev.write [Command.GET_ME_ID], Ev.read 1, Ev.read 4]⟩) ∧
    (∀ (e : List Nat) (rest : List (List Nat)),
      get_soc_id ⟨[e, [0, 0, 0, 0]] ++ rest, []⟩ =
        .raise (.emptyIdentity "SOC ID") ⟨rest,
          [Ev.write [Command.GET_SOC_ID], Ev.read 1, Ev.read 4]⟩) ∧
    (∀ (e1 hw e2 sub ver sw e3 : List Nat) (rest : List (List Nat))
      (H A B C : Nat),
      from_bytes hw 2 .big = .ok H →
      from_bytes sub 2 .big = .ok A →
      from_bytes ver 2 .big = .ok B →
      from_bytes sw 2 .big = .ok C →
      identify ⟨[e1, hw, [0, 0], e2, sub, ver, sw, [0, 0], e3,
          [0, 0, 0, 0]] ++ rest, []⟩ =
        .raise (.emptyIdentity "ME ID") ⟨rest,
          [Ev.write [Command.GET_HW_CODE], Ev.read 1, Ev.read 2,
           Ev.read 2,
           Ev.write [Command.GET_HW_SW_VER], Ev.read 1, Ev.read 2,
           Ev.read 2, Ev.read 2, Ev.read 2,
           Ev.write [Command.GET_ME_ID], Ev.read 1, Ev.read 4]⟩) := by
  have h00 : from_bytes [0, 0] 2 .big = .ok 0 := rfl
  have h04 : from_bytes [0, 0, 0, 0] 4 .big = .ok 0 := rfl
  refine ⟨fun e rest => rfl, fun e rest => rfl,
    fun e1 hw e2 sub ver sw e3 rest H A B C hhw hsub hver hsw => ?_⟩
  simp [identify, get_hw_code, get_hw_sw_ver, get_me_id, Res.bind, liftE,
    echo, devRead, devWrite, to_bytes, pack1, Command.GET_HW_CODE,
    Command.GET_HW_SW_VER, Command.GET_ME_ID, hhw, hsub, hver, hsw, h00,
    h04]

/-- Witness for C6: identify with a scripted zero ME-ID length. -/
theorem c6_empty_identity_witness :
    identify ⟨[[0xFD], [0x12, 0x34], [0, 0], [0xFC], [0, 1], [0, 2],
        [0, 3], [0, 0], [0xE1], [0, 0, 0, 0]] ++ [[0xAA]], []⟩ =
      .raise (.emptyIdentity "ME ID") ⟨[[0xAA]],
        [Ev.write [Command.GET_HW_CODE], Ev.read 1, Ev.read 2, Ev.read 2,
         Ev.write [Command.GET_HW_SW_VER], Ev.read 1, Ev.read 2,
         Ev.read 2, Ev.read 2, Ev.read 2,
         Ev.write [Command.GET_ME_ID], Ev.read 1, Ev.read 4]⟩ :=
  c6_empty_identity.2.2 [0xFD] [0x12, 0x34] [0xFC] [0, 1] [0, 2] [0, 3]
    [0xE1] [[0xAA]] 0x1234 1 2 3 rfl rfl rfl rfl

/-- Claim C7: `send_da` writes the opcode and the three 4-byte big-endian
header fields (each write followed by an echo read that is discarded),
reads a 2-byte initial status that must be zero, writes the payload as a
single block with no echo read, then reads a 2-byte checksum and a 2-byte
status; with both statuses zero it returns the device-reported checksum
unchanged, with a nonzero post-payload status it raises the status error
carrying that code and returns no checksum, and with a nonzero initial
status it raises before the payload is ever written. -/
theorem c7_send_da (address da_len sig_len : Nat) (da : List Nat)
    (e1 ea el es cs st2 : List Nat) (rest : List (List Nat))
    (A4 L4 S4 : List Nat) (K S : Nat)
    (ha : to_bytes address 4 .big = .ok A4)
    (hl : to_bytes da_len 4 .big = .ok L4)
    (hs : to_bytes sig_len 4 .big = .ok S4)
    (hcs : from_bytes cs 2 .big = .ok K)
    (hst : from_bytes st2 2 .big = .ok S) :
    (S = 0 →
      send_da ⟨[e1, ea, el, es, [0, 0], cs, st2] ++ rest, []⟩ address
          da_len sig_len da =
        .ok K ⟨rest,
          [Ev.write [Command.SEND_DA], Ev.read 1, Ev.write A4, Ev.read 4,
           Ev.write L4, Ev.read 4, Ev.write S4, Ev.read 4, Ev.read 2,
           Ev.write da, Ev.read 2, Ev.read 2]⟩) ∧
    (S ≠ 0 →
      send_da ⟨[e1, ea, el, es, [0, 0], cs, st2] ++ rest, []⟩ address
          da_len sig_len da =
        .raise (.statusError S) ⟨rest,
          [Ev.write [Command.SEND_DA], Ev.read 1, Ev.write A4, Ev.read 4,
           Ev.write L4, Ev.read 4, Ev.write S4, Ev.read 4, Ev.read 2,
           Ev.write da, Ev.read 2, Ev.read 2]⟩) ∧
    (∀ (st1 : List Nat) (S1 : Nat), from_bytes st1 2 .big = .ok S1 →
      S1 ≠ 0 →
      send_da ⟨[e1, ea, el, es, st1] ++ rest, []⟩ address da_len sig_len
          da =
        .raise (.statusError S1) ⟨rest,
          [Ev.write [Command.SEND_DA], Ev.read 1, Ev.write A4, Ev.read 4,
           Ev.write L4, Ev.read 4, Ev.write S4, Ev.read 4, Ev.read 2]⟩) := by
  have h00 : from_bytes [0, 0] 2 .big = .ok 0 := rfl
  have ha' : pack4 address Endian.big = .ok A4 := by
    simpa [to_bytes] using ha
  have hl' : pack4 da_len Endian.big = .ok L4 := by
    simpa [to_bytes] using hl
  have hs' : pack4 sig_len Endian.big = .ok S4 := by
    simpa [to_bytes] using hs
  refine ⟨fun hS => ?_, fun hS => ?_, fun st1 S1 h1 hS1 => ?_⟩ <;>
    simp [send_da, liftE, echo, devRead, devWrite, to_bytes, pack1,
      Command.SEND_DA, ha', hl', hs', hcs, hst, h00, *]

/-- Witness for C7: the spec scenario — address `0x200000`, 1024-byte
payload, 256-byte signature, all statuses zero, checksum `0xABCD`. -/
theorem c7_send_da_witness :
    send_da ⟨[[0xD7], [0, 32, 0, 0], [0, 0, 4, 0], [0, 0, 1, 0], [0, 0],
        [0xAB, 0xCD], [0, 0]] ++ [], []⟩ 0x200000 1024 256
        (List.replicate 1024 0) =
      .ok 0xABCD ⟨[],
        [Ev.write [Command.SEND_DA], Ev.read 1,
         Ev.write [0, 32, 0, 0], Ev.read 4,
         Ev.write [0, 0, 4, 0], Ev.read 4,
         Ev.write [0, 0, 1, 0], Ev.read 4, Ev.read 2,
         Ev.write (List.replicate 1024 0), Ev.read 2, Ev.read 2]⟩ :=
  (c7_send_da 0x200000 1024 256 (List.replicate 1024 0) [0xD7]
    [0, 32, 0, 0] [0, 0, 4, 0] [0, 0, 1, 0] [0xAB, 0xCD] [0, 0] []
    [0, 32, 0, 0] [0, 0, 4, 0] [0, 0, 1, 0] 0xABCD 0 rfl rfl rfl rfl
    rfl).1 rfl

/-- Claim C8: `jump_da` writes the opcode and the 4-byte big-endian
address, discarding an echo read after each write, then reads the 2-byte
trailing status and returns normally for every status chunk the device
yields — including nonzero values — never raising on it. -/
theorem c8_jump_da_ignores_status (address : Nat) (e1 e2 st : List Nat)
    (rest : List (List Nat)) (A4 : List Nat)
    (ha : to_bytes address 4 .big = .ok A4) :
    jump_da ⟨[e1, e2, st] ++ rest, []⟩ address =
      .ok () ⟨rest,
        [Ev.write [Command.JUMP_DA], Ev.read 1, Ev.write A4, Ev.read 1,
         Ev.read 2]⟩ := by
  have ha' : pack4 address Endian.big = .ok A4 := by
    simpa [to_bytes] using ha
  simp [jump_da, liftE, echo, devRead, devWrite, to_bytes, pack1,
    Command.JUMP_DA, ha']

/-- Witness for C8: a nonzero scripted status `0x0001` still succeeds. -/
theorem c8_jump_da_ignores_status_witness :
    jump_da ⟨[[0xD5], [0x00], [0x00, 0x01]] ++ [], []⟩ 0x200000 =
      .ok () ⟨[],
        [Ev.write [Command.JUMP_DA], Ev.read 1, Ev.write [0, 32, 0, 0],
         Ev.read 1, Ev.read 2]⟩ :=
  c8_jump_da_ignores_status 0x200000 [0xD5] [0x00] [0x00, 0x01] []
    [0, 32, 0, 0] rfl

/-- Claim C9: every enveloped command (`GET_HW_CODE`, `GET_HW_SW_VER`,
`GET_ME_ID`, `GET_SOC_ID`, `PWR_INIT`, `PWR_DEINIT`, `SEND_DA`) writes
its 1-byte opcode and consumes the echo without verification — the
command behaves identically whatever bytes each echo read yields — each
argument field is likewise echoed and discarded, and the trailing 2-byte
big-endian status raises the status error carrying the raw code exactly
when it is nonzero, aborting the operation. -/
theorem c9_command_envelope :
    (∀ (e e' hw st : List Nat) (rest : List (List Nat)),
      get_hw_code ⟨e :: hw :: st :: rest, []⟩ =
        get_hw_code ⟨e' :: hw :: st :: rest, []⟩) ∧
    (∀ (e hw st : List Nat) (rest : List (List Nat)) (H S : Nat),
      from_bytes hw 2 .big = .ok H → from_bytes st 2 .big = .ok S →
      get_hw_code ⟨e :: hw :: st :: rest, []⟩ =
        if S ≠ 0 then
          .raise (.statusError S) ⟨rest,
            [Ev.write [Command.GET_HW_CODE], Ev.read 1, Ev.read 2,
             Ev.read 2]⟩
        else
          .ok H ⟨rest,
            [Ev.write [Command.GET_HW_CODE], Ev.read 1, Ev.read 2,
             Ev.read 2]⟩) ∧
    (∀ (e e' sub ver sw st : List Nat) (rest : List (List Nat)),
      get_hw_sw_ver ⟨e :: sub :: ver :: sw :: st :: rest, []⟩ =
        get_hw_sw_ver ⟨e' :: sub :: ver :: sw :: st :: rest, []⟩) ∧
    (∀ (e sub ver sw st : List Nat) (rest : List (List Nat))
      (A B C S : Nat),
      from_bytes sub 2 .big = .ok A → from_bytes ver 2 .big = .ok B →
      from_bytes sw 2 .big = .ok C → from_bytes st 2 .big = .ok S →
      get_hw_sw_ver ⟨e :: sub :: ver :: sw :: st :: rest, []⟩ =
        if S ≠ 0 then
          .raise (.statusError S) ⟨rest,
            [Ev.write [Command.GET_HW_SW_VER], Ev.read 1, Ev.read 2,
             Ev.read 2, Ev.read 2, Ev.read 2]⟩
        else
          .ok (A, B, C) ⟨rest,
            [Ev.write [Command.GET_HW_SW_VER], Ev.read 1, Ev.read 2,
             Ev.read 2, Ev.read 2, Ev.read 2]⟩) ∧
    (∀ (e e' lm mid st : List Nat) (rest : List (List Nat)),
      get_me_id ⟨e :: lm :: mid :: st :: rest, []⟩ =
        get_me_id ⟨e' :: lm :: mid :: st :: rest, []⟩) ∧
    (∀ (e lm mid st : List Nat) (rest : List (List Nat)) (LM S : Nat),
      from_bytes lm 4 .big = .ok LM → LM ≠ 0 →
      from_bytes st 2 .big = .ok S →
      get_me_id ⟨e :: lm :: mid :: st :: rest, []⟩ =
        if S ≠ 0 then
          .raise (.statusError S) ⟨rest,
            [Ev.write [Command.GET_ME_ID], Ev.read 1, Ev.read 4,
             Ev.read LM, Ev.read 2]⟩
        else
          .ok mid ⟨rest,
            [Ev.write [Command.GET_ME_ID], Ev.read 1, Ev.read 4,
             Ev.read LM, Ev.read 2]⟩) ∧
    (∀ (e e' ls sid st : List Nat) (rest : List (List Nat)),
      get_soc_id ⟨e :: ls :: sid :: st :: rest, []⟩ =
        get_soc_id ⟨e' :: ls :: sid :: st :: rest, []⟩) ∧
    (∀ (e ls sid st : List Nat) (rest : List (List Nat)) (LS S : Nat),
      from_bytes ls 4 .big = .ok LS → LS ≠ 0 →
      from_bytes st 2 .big = .ok S →
      get_soc_id ⟨e :: ls :: sid :: st :: rest, []⟩ =
        if S ≠ 0 then
          .raise (.statusError S) ⟨rest,
            [Ev.write [Command.GET_SOC_ID], Ev.read 1, Ev.read 4,
             Ev.read LS, Ev.read 2]⟩
        else
          .ok sid ⟨rest,
            [Ev.write [Command.GET_SOC_ID], Ev.read 1, Ev.read 4,
             Ev.read LS, Ev.read 2]⟩) ∧
    (∀ (reg val : Nat) (e1 e2 e3 e1' e2' e3' st : List Nat)
      (rest : List (List Nat)) (R4 V4 : List Nat),
      to_bytes reg 4 .big = .ok R4 → to_bytes val 4 .big = .ok V4 →
      power_init ⟨e1 :: e2 :: e3 :: st :: rest, []⟩ reg val =
        power_init ⟨e1' :: e2' :: e3' :: st :: rest, []⟩ reg val) ∧
    (∀ (reg val : Nat) (e1 e2 e3 st : List Nat) (rest : List (List Nat))
      (R4 V4 : List Nat) (S : Nat),
      to_bytes reg 4 .big = .ok R4 → to_bytes val 4 .big = .ok V4 →
      from_bytes st 2 .big = .ok S →
      power_init ⟨e1 :: e2 :: e3 :: st :: rest, []⟩ reg val =
        if S ≠ 0 then
          .raise (.statusError S) ⟨rest,
            [Ev.write [Command.PWR_INIT], Ev.read 1, Ev.write R4,
             Ev.read 1, Ev.write V4, Ev.read 1, Ev.read 2]⟩
        else
          .ok () ⟨rest,
            [Ev.write [Command.PWR_INIT], Ev.read 1, Ev.write R4,
             Ev.read 1, Ev.write V4, Ev.read 1, Ev.read 2]⟩) ∧
    (∀ (e e' st : List Nat) (rest : List (List Nat)),
      power_deinit ⟨e :: st :: rest, []⟩ =
        power_deinit ⟨e' :: st :: rest, []⟩) ∧
    (∀ (e st : List Nat) (rest : List (List Nat)) (S : Nat),
      from_bytes st 2 .big = .ok S →
      power_deinit ⟨e :: st :: rest, []⟩ =
        if S ≠ 0 then
          .raise (.statusError S) ⟨rest,
            [Ev.write [Command.PWR_DEINIT], Ev.read 1, Ev.read 2]⟩
        else
          .ok () ⟨rest,
            [Ev.write [Command.PWR_DEINIT], Ev.read 1, Ev.read 2]⟩) ∧
    (∀ (address da_len sig_len : Nat) (da : List Nat)
      (e1 ea el es e1' ea' el' es' cs st : List Nat)
      (rest : List (List Nat)) (A4 L4 S4 : List Nat),
      to_bytes address 4 .big = .ok A4 → to_bytes da_len 4 .big = .ok L4 →
      to_bytes sig_len 4 .big = .ok S4 →
      send_da ⟨e1 :: ea :: el :: es :: [0, 0] :: cs :: st :: rest, []⟩
          address da_len sig_len da =
        send_da ⟨e1' :: ea' :: el' :: es' :: [0, 0] :: cs :: st :: rest,
          []⟩ address da_len sig_len da) ∧
    (∀ (address da_len sig_len : Nat) (da : List Nat)
      (e1 ea el es cs st : List Nat) (rest : List (List Nat))
      (A4 L4 S4 : List Nat) (K S : Nat),
      to_bytes address 4 .big = .ok A4 → to_bytes da_len 4 .big = .ok L4 →
      to_bytes sig_len 4 .big = .ok S4 → from_bytes cs 2 .big = .ok K →
      from_bytes st 2 .big = .ok S →
      send_da ⟨e1 :: ea :: el :: es :: [0, 0] :: cs :: st :: rest, []⟩
          address da_len sig_len da =
        if S ≠ 0 then
          .raise (.statusError S) ⟨rest,
            [Ev.write [Command.SEND_DA], Ev.read 1, Ev.write A4,
             Ev.read 4, Ev.write L4, Ev.read 4, Ev.write S4, Ev.read 4,
             Ev.read 2, Ev.write da, Ev.read 2, Ev.read 2]⟩
        else
          .ok K ⟨rest,
            [Ev.write [Command.SEND_DA], Ev.read 1, Ev.write A4,
             Ev.read 4, Ev.write L4, Ev.read 4, Ev.write S4, Ev.read 4,
             Ev.read 2, Ev.write da, Ev.read 2, Ev.read 2]⟩) := by
  have h00 : from_bytes [0, 0] 2 .big = .ok 0 := rfl
  refine ⟨fun e e' hw st rest => rfl,
    fun e hw st rest H S hhw hst => ?_,
    fun e e' sub ver sw st rest => rfl,
    fun e sub ver sw st rest A B C S hsub hver hsw hst => ?_,
    fun e e' lm mid st rest => rfl,
    fun e lm mid st rest LM S hlm hLM hst => ?_,
    fun e e' ls sid st rest => rfl,
    fun e ls sid st rest LS S hls hLS hst => ?_,
    fun reg val e1 e2 e3 e1' e2' e3' st rest R4 V4 hr hv => ?_,
    fun reg val e1 e2 e3 st rest R4 V4 S hr hv hst => ?_,
    fun e e' st rest => rfl,
    fun e st rest S hst => ?_,
    fun address da_len sig_len da e1 ea el es e1' ea' el' es' cs st rest
      A4 L4 S4 ha hl hs => ?_,
    fun address da_len sig_len da e1 ea el es cs st rest A4 L4 S4 K S ha
      hl hs hcs hst => ?_⟩
  · simp only [get_hw_code, liftE, echo, devRead, devWrite, to_bytes,
      pack1, Command.GET_HW_CODE]
    simp [hhw, hst]
  · simp only [get_hw_sw_ver, liftE, echo, devRead, devWrite, to_bytes,
      pack1, Command.GET_HW_SW_VER]
    simp [hsub, hver, hsw, hst]
  · simp only [get_me_id, liftE, echo, devRead, devWrite, to_bytes,
      pack1, Command.GET_ME_ID]
    simp [hlm, hLM, hst]
  · simp only [get_soc_id, liftE, echo, devRead, devWrite, to_bytes,
      pack1, Command.GET_SOC_ID]
    simp [hls, hLS, hst]
  · have hr' : pack4 reg Endian.big = .ok R4 := by simpa [to_bytes] using hr
    have hv' : pack4 val Endian.big = .ok V4 := by simpa [to_bytes] using hv
    simp [power_init, liftE, echo, devRead, devWrite, to_bytes, pack1,
      Command.PWR_INIT, hr', hv']
  · have hr' : pack4 reg Endian.big = .ok R4 := by simpa [to_bytes] using hr
    have hv' : pack4 val Endian.big = .ok V4 := by simpa [to_bytes] using hv
    simp only [power_init, liftE, echo, devRead, devWrite, to_bytes,
      pack1, Command.PWR_INIT]
    simp [hr', hv', hst]
  · simp only [power_deinit, liftE, echo, devRead, devWrite, to_bytes,
      pack1, Command.PWR_DEINIT]
    simp [hst]
  · have ha' : pack4 address Endian.big = .ok A4 := by
      simpa [to_bytes] using ha
    have hl' : pack4 da_len Endian.big = .ok L4 := by
      simpa [to_bytes] using hl
    have hs' : pack4 sig_len Endian.big = .ok S4 := by
      simpa [to_bytes] using hs
    simp [send_da, liftE, echo, devRead, devWrite, to_bytes, pack1,
      Command.SEND_DA, ha', hl', hs', h00]
  · have ha' : pack4 address Endian.big = .ok A4 := by
      simpa [to_bytes] using ha
    have hl' : pack4 da_len Endian.big = .ok L4 := by
      simpa [to_bytes] using hl
    have hs' : pack4 sig_len Endian.big = .ok S4 := by
      simpa [to_bytes] using hs
    simp only [send_da, liftE, echo, devRead, devWrite, to_bytes, pack1,
      Command.SEND_DA]
    simp [ha', hl', hs', hcs, hst, h00]

/-- Witness for C9: `PWR_INIT` with a nonzero scripted status `0x1C01`
raises the status error carrying that code. -/
theorem c9_command_envelope_witness :
    power_init ⟨[0xC4] :: [0x00] :: [0x00] :: [0x1C, 0x01] :: [], []⟩
        0x8000 0x0001 =
      if (0x1C01 : Nat) ≠ 0 then
        .raise (.statusError 0x1C01) ⟨[],
          [Ev.write [Command.PWR_INIT], Ev.read 1,
           Ev.write [0, 0, 128, 0], Ev.read 1,
           Ev.write [0, 0, 0, 1], Ev.read 1, Ev.read 2]⟩
      else
        .ok () ⟨[],
          [Ev.write [Command.PWR_INIT], Ev.read 1,
           Ev.write [0, 0, 128, 0], Ev.read 1,
           Ev.write [0, 0, 0, 1], Ev.read 1, Ev.read 2]⟩ :=
  c9_command_envelope.2.2.2.2.2.2.2.2.2.1 0x8000 0x0001 [0xC4] [0x00]
    [0x00] [0x1C, 0x01] [] [0, 0, 128, 0] [0, 0, 0, 1] 0x1C01 rfl rfl rfl

/-! ### Port discovery

`find_port` in `src/utils.py` busy-polls `serial.tools.list_ports`.  The
environment is modelled by `ports : Nat → List PortInfo`, the enumeration
snapshot the loop sees on its `i`-th iteration, and elapsed wall-clock
time by the iteration count; `fuel` bounds how many iterations are
simulated.  `none` means the loop has not returned within `fuel`
iterations (with `timeout = none` and no match it never returns). -/

/-- One enumerated serial endpoint (`ListPortInfo`). -/
structure PortInfo where
  vid : Nat
  pid : Nat
  device : String
deriving DecidableEq

/-- The inner `for port in comports()` scan: the first endpoint matching
the vendor/product pair, if any. -/
def findFirst (vendor_id product_id : Nat) :
    List PortInfo → Option String
  | [] => none
  | p :: rest =>
    if p.vid = vendor_id ∧ p.pid = product_id then some p.device
    else findFirst vendor_id product_id rest

/-- The loop guard `timeout is None or time.time() - start < timeout`,
with elapsed time modelled by the iteration count `i`. -/
def timeLeft (timeout : Option Nat) (i : Nat) : Prop :=
  match timeout with
  | none => True
  | some t => i < t

instance (timeout : Option Nat) (i : Nat) : Decidable (timeLeft timeout i) :=
  match timeout with
  | none => isTrue trivial
  | some t => Nat.decLt i t

/-- `src/utils.py` `find_port(vendor_id, product_id, timeout=None)`:
loops while `timeout is None or elapsed < timeout`, scanning each
snapshot; inside `some r`, `r` is the Python return value (`none` is the
final `return None` after the timeout elapsed). -/
def find_port (vendor_id product_id : Nat) (timeout : Option Nat)
    (ports : Nat → List PortInfo) (i : Nat) :
    Nat → Option (Option String)
  | 0 => none
  | fuel + 1 =>
    if timeLeft timeout i then
      match findFirst vendor_id product_id (ports i) with
      | some dev => some (some dev)
      | none => find_port vendor_id product_id timeout ports (i + 1) fuel
    else some none

/-- `Device.find_device(vendor_id=0x0E8D, product_id=0x2000)` on a
session with no bound transport: calls `find_port` with no timeout and
raises `RuntimeError('Device not found')` when the port is falsy (Python
`not self.port`: `None` or the empty string). -/
def find_device (ports : Nat → List PortInfo) (fuel : Nat) :
    Option (Except PyError String) :=
  match find_port 0x0E8D 0x2000 none ports 0 fuel with
  | none => none
  | some none => some (.error .deviceNotFound)
  | some (some s) =>
    if s = "" then some (.error .deviceNotFound) else some (.ok s)

/-- A successful scan returns the device name of a matching endpoint. -/
theorem findFirst_mem (vendor_id product_id : Nat) (l : List PortInfo)
    (s : String) (h : findFirst vendor_id product_id l = some s) :
    ∃ p ∈ l, p.vid = vendor_id ∧ p.pid = product_id ∧ p.device = s := by
  induction l with
  | nil => simp [findFirst] at h
  | cons p rest ih =>
    by_cases hp : p.vid = vendor_id ∧ p.pid = product_id
    · refine ⟨p, List.mem_cons_self p rest, hp.1, hp.2, ?_⟩
      simp [findFirst, hp] at h
      exact h
    · simp only [findFirst, if_neg hp] at h
      obtain ⟨q, hq, hqv⟩ := ih h
      exact ⟨q, List.mem_cons_of_mem p hq, hqv⟩

/-- With no timeout, `find_port` never returns `None`: each simulated run
either has not returned yet or returns a found device name. -/
theorem find_port_no_timeout_ne_none (vendor_id product_id : Nat)
    (ports : Nat → List PortInfo) (i fuel : Nat) :
    find_port vendor_id product_id none ports i fuel ≠ some none := by
  induction fuel generalizing i with
  | zero => simp [find_port]
  | succ fuel ih =>
    rw [find_port, if_pos (by exact trivial : timeLeft none i)]
    cases h : findFirst vendor_id product_id (ports i) with
    | none => exact ih (i + 1)
    | some dev => simp

/-- When `find_port` returns a device name, some snapshot contained a
matching endpoint carrying that name. -/
theorem find_port_returns_match (vendor_id product_id : Nat)
    (timeout : Option Nat) (ports : Nat → List PortInfo) (i fuel : Nat)
    (s : String)
    (h : find_port vendor_id product_id timeout ports i fuel =
      some (some s)) :
    ∃ j p, p ∈ ports j ∧ p.vid = vendor_id ∧ p.pid = product_id ∧
      p.device = s := by
  induction fuel generalizing i with
  | zero => simp [find_port] at h
  | succ fuel ih =>
    rw [find_port] at h
    by_cases hc : timeLeft timeout i
    · rw [if_pos hc] at h
      cases hf : findFirst vendor_id product_id (ports i) with
      | none =>
        rw [hf] at h
        exact ih (i + 1) h
      | some dev =>
        rw [hf] at h
        obtain ⟨p, hp, hpv⟩ := findFirst_mem vendor_id product_id
          (ports i) dev hf
        simp only [Option.some.injEq] at h
        exact ⟨i, p, hp, hpv.1, hpv.2.1, h ▸ hpv.2.2⟩
    · rw [if_neg hc] at h
      simp at h

/-- Claim C10: with no timeout `find_port` can only return a matching
device name or keep looping — it never returns `None` — so on an unbound
session `find_device` (which passes no timeout) can never raise the
device-not-found error, provided every enumerated endpoint carries a
nonempty device name; the error branch is unreachable. -/
theorem c10_device_not_found_unreachable (ports : Nat → List PortInfo)
    (hne : ∀ i p, p ∈ ports i → p.device ≠ "") :
    (∀ i fuel vendor_id product_id,
      find_port vendor_id product_id none ports i fuel ≠ some none) ∧
    (∀ i fuel vendor_id product_id s,
      find_port vendor_id product_id none ports i fuel = some (some s) →
      ∃ j p, p ∈ ports j ∧ p.vid = vendor_id ∧ p.pid = product_id ∧
        p.device = s) ∧
    (∀ fuel, find_device ports fuel ≠ some (.error .deviceNotFound)) := by
  refine ⟨fun i fuel v p =>
      find_port_no_timeout_ne_none v p ports i fuel,
    fun i fuel v p s h =>
      find_port_returns_match v p none ports i fuel s h,
    fun fuel => ?_⟩
  unfold find_device
  cases h : find_port 0x0E8D 0x2000 none ports 0 fuel with
  | none => simp
  | some r =>
    cases r with
    | none => exact absurd h (find_port_no_timeout_ne_none _ _ ports 0 fuel)
    | some s =>
      obtain ⟨j, p, hp, _, _, hdev⟩ :=
        find_port_returns_match 0x0E8D 0x2000 none ports 0 fuel s h
      have : s ≠ "" := hdev ▸ hne j p hp
      simp [this]

/-- Witness for C10: a single matching endpoint on `/dev/ttyUSB0`. -/
theorem c10_device_not_found_unreachable_witness :
    find_device (fun _ => [⟨0x0E8D, 0x2000, "/dev/ttyUSB0"⟩]) 1 ≠
      some (.error .deviceNotFound) :=
  (c10_device_not_found_unreachable
    (fun _ => [⟨0x0E8D, 0x2000, "/dev/ttyUSB0"⟩])
    (fun i p hp => by
      simp only [List.mem_singleton] at hp
      subst hp
      decide)).2.2 1

end Moto
